import Mathlib

/-!
Verification of the RAG question-answering pipeline
(`src/data_loader.py`, `src/text_splitter.py`, `src/vectorstore.py`,
`src/observability.py`, `src/main.py` and the top-level `main.py`).

The development is a shallow embedding of the program:

* The file system is a map from paths to file records.  A file record
  carries its content and its modification time (Python `os.path.getmtime`
  returns a float; floats are modelled by rationals `ℚ`).
* The only file whose *content* the program ever reads is the checkpoint
  file, which is read with `float(f.read().strip())`.  Content is therefore
  modelled by `FileData`: either `FileData.timestamp t` — the decimal
  representation `str(t)` of a float `t`, which Python's documented
  `repr`/`float` round-trip parses back to exactly `t` — or
  `FileData.garbage`, content on which `float(...)` raises `ValueError`.
* Python exceptions are modelled with `Except`; a `try/except` that
  swallows the error becomes a total function returning the fallback.
* Stateful code threads the file system explicitly; printed output is
  collected as a list of the payload strings handed to `print`.
* Python's `str.strip`, `str.lower` and slicing `[:n]` are modelled by the
  executable functions `pyStrip`, `pyLower` and `takeChars` below.
-/

namespace RagSpec

abbrev Path := String

/-- Modification times: Python `os.path.getmtime` floats, modelled as `ℚ`. -/
abbrev Timestamp := ℚ

/-- Python exception payloads (`str(e)`). -/
abbrev Exn := String

/-- Content of a file as far as this program can observe it.
`timestamp t` is the string `str(t)` for a float `t` (Python guarantees
`float(str(t)) == t`); `garbage` is any content on which `float(...)`
raises, e.g. the bytes of a PDF. -/
inductive FileData where
  | timestamp : Timestamp → FileData
  | garbage : FileData
deriving DecidableEq

/-- Embeds `float(f.read().strip())`: the parse succeeds exactly on the
string representation of a float and yields that float back. -/
def parseFloat : FileData → Option Timestamp
  | FileData.timestamp t => some t
  | FileData.garbage => none

/-- A file on disk: its content and its modification time. -/
structure FileInfo where
  data : FileData
  mtime : Timestamp
deriving DecidableEq

/-- The file system: which path holds which file, and which paths the
process may write (an unwritable path makes `open(p, 'w')` raise). -/
structure FS where
  file : Path → Option FileInfo
  writable : Path → Bool

/-- Embeds `os.path.exists` (threading the file system, which it does not
change). -/
def osPathExists (fs : FS) (p : Path) : Bool × FS :=
  ((fs.file p).isSome, fs)

/-- Embeds `os.path.getmtime` as a read: `none` models the `OSError` raised
on a missing path. -/
def osGetmtime (fs : FS) (p : Path) : Option Timestamp × FS :=
  ((fs.file p).map (fun fi => fi.mtime), fs)

/-- Embeds `open(p, 'r').read()` as a read: `none` models the `OSError`
raised on a missing path. -/
def readFileData (fs : FS) (p : Path) : Option FileData × FS :=
  ((fs.file p).map (fun fi => fi.data), fs)

/-- Embeds `open(p, 'w').write(d)` at wall-clock time `now`: fails on an
unwritable path, otherwise replaces the file at `p` (the write sets the
file's modification time to `now`). -/
def writeFileData (fs : FS) (p : Path) (d : FileData) (now : Timestamp) : Except Exn FS :=
  if fs.writable p then
    Except.ok (FS.mk (fun q => if q = p then some (FileInfo.mk d now) else fs.file q) fs.writable)
  else
    Except.error ("could not open " ++ p ++ " for writing")

/-- The default value of the `checkpoint_file` parameter in
`src/data_loader.py`. -/
def defaultCheckpoint : Path := ".pdf_checkpoint"

/-- Embeds `has_pdf_changed(pdf_path, checkpoint_file)` from
`src/data_loader.py` lines 9-38: no checkpoint file → `True`; missing PDF
→ `True` (warning logged); then `current_mtime = os.path.getmtime(pdf_path)`
and the checkpoint is read and parsed inside `try`, any failure → `True`;
finally `True` iff the parsed value differs from `current_mtime`. -/
def has_pdf_changed (fs : FS) (pdf_path checkpoint_file : Path) : Bool :=
  match fs.file checkpoint_file with
  | none => true
  | some ck =>
    match fs.file pdf_path with
    | none => true
    | some pdf =>
      match parseFloat ck.data with
      | none => true
      | some last_mtime => if pdf.mtime ≠ last_mtime then true else false

/-- `has_pdf_changed` again, with every file-system access threaded through
the state exactly as the source performs it (two `os.path.exists` checks,
one `os.path.getmtime`, one `open(..., 'r')`), so that the frame property
"the call writes nothing" is visible in the embedding. -/
def has_pdf_changed_st (fs : FS) (pdf_path checkpoint_file : Path) : Bool × FS :=
  let r1 := osPathExists fs checkpoint_file
  if !r1.1 then (true, r1.2)
  else
    let r2 := osPathExists r1.2 pdf_path
    if !r2.1 then (true, r2.2)
    else
      let r3 := osGetmtime r2.2 pdf_path
      let r4 := readFileData r3.2 checkpoint_file
      match r3.1, r4.1 with
      | some current_mtime, some d =>
        match parseFloat d with
        | some last_mtime => (if current_mtime ≠ last_mtime then true else false, r4.2)
        | none => (true, r4.2)
      | _, _ => (true, r4.2)

/-- The body of `update_pdf_checkpoint` (`src/data_loader.py` lines 43-47)
without its `except` clause: `os.path.getmtime` raises on a missing PDF,
then `open(checkpoint_file, 'w')` writes `str(mtime)`. -/
def update_pdf_checkpoint_raw (fs : FS) (pdf_path checkpoint_file : Path) (now : Timestamp) :
    Except Exn FS :=
  match fs.file pdf_path with
  | none => Except.error ("No such file or directory: " ++ pdf_path)
  | some pdf => writeFileData fs checkpoint_file (FileData.timestamp pdf.mtime) now

/-- Embeds `update_pdf_checkpoint(pdf_path, checkpoint_file)` from
`src/data_loader.py` lines 41-49: the whole body is inside
`try/except Exception`, and a failure is logged and swallowed, leaving the
file system as it was. -/
def update_pdf_checkpoint (fs : FS) (pdf_path checkpoint_file : Path) (now : Timestamp) : FS :=
  match update_pdf_checkpoint_raw fs pdf_path checkpoint_file now with
  | Except.ok fs' => fs'
  | Except.error _ => fs

/-! Python string helpers used by the interactive loops.  Core
`String.trim`/`String.toLower` are defined through well-founded recursion
and do not reduce in the kernel, so the Python builtins are embedded
directly on the character list. -/

/-- Embeds Python `str.strip()`: drop whitespace from both ends. -/
def pyStrip (s : String) : String :=
  String.mk (((s.data.dropWhile Char.isWhitespace).reverse.dropWhile Char.isWhitespace).reverse)

/-- Embeds Python `str.lower()`. -/
def pyLower (s : String) : String :=
  String.mk (s.data.map Char.toLower)

/-- Embeds Python slicing `s[:n]`. -/
def takeChars (s : String) (n : Nat) : String :=
  String.mk (s.data.take n)

/-! The trace recorder (`src/observability.py`). -/

/-- What one `_langfuse_client.trace(...)` call forwards to the sink
(name, success/error status, truncated error text). -/
structure TraceRec where
  name : String
  status : String
  error : Option String
deriving DecidableEq

/-- The telemetry sink: `_langfuse_client.trace` may itself raise (sink
outage); `Option Sink` models the global `_langfuse_client`, `none` when
Langfuse is unavailable or not configured. -/
abbrev Sink := TraceRec → Except Exn Unit

/-- The mutable dict yielded by `trace_context` (`ctx`): its `metadata`,
`input` and `output` entries. -/
structure TraceCtx where
  metadata : List (String × String)
  input : Option String
  output : Option String
deriving DecidableEq

/-- Embeds `ctx["output"] = response`. -/
def setOutput (ctx : TraceCtx) (response : String) : TraceCtx :=
  TraceCtx.mk ctx.metadata ctx.input (some response)

/-- Embeds `if _langfuse_client: try: _langfuse_client.trace(...) except:
logger.debug(...)` — forward a record to the sink when a client is
configured, swallowing any sink failure, so the operation is total and
returns nothing. -/
def trySink (client : Option Sink) (r : TraceRec) : Unit :=
  match client with
  | none => ()
  | some sink =>
    match sink r with
    | Except.ok _ => ()
    | Except.error _ => ()

/-- Embeds the wrapper produced by `trace_function(name, ...)` from
`src/observability.py` lines 113-200, applied to a function `f` at `x`:
run `f`; on success forward a success record to the sink (sink failures
swallowed) and return the result; on failure forward an error record the
same way and re-raise the original exception. -/
def trace_function {α β : Type} (client : Option Sink) (trace_name : String)
    (f : α → Except Exn β) (x : α) : Except Exn β :=
  match f x with
  | Except.ok result =>
    let _ := trySink client (TraceRec.mk trace_name "success" none)
    Except.ok result
  | Except.error e =>
    let _ := trySink client (TraceRec.mk trace_name "error" (some (takeChars e 100)))
    Except.error e

/-- Embeds `trace_context(name, metadata)` from `src/observability.py`
lines 203-267 wrapped around a block `body` (the body receives the yielded
`ctx` and returns a value together with the final `ctx`): on success
forward a success record to the sink (sink failures swallowed); on failure
forward an error record the same way and re-raise. -/
def trace_context {ρ : Type} (client : Option Sink) (trace_name : String)
    (metadata : List (String × String)) (body : TraceCtx → Except Exn (ρ × TraceCtx)) :
    Except Exn (ρ × TraceCtx) :=
  match body (TraceCtx.mk metadata none none) with
  | Except.ok res =>
    let _ := trySink client (TraceRec.mk trace_name "success" none)
    Except.ok res
  | Except.error e =>
    let _ := trySink client (TraceRec.mk trace_name "error" (some (takeChars e 100)))
    Except.error e

/-! The chunker (`src/text_splitter.py`).

`split_documents` delegates to the third-party
`TokenTextSplitter.from_huggingface_tokenizer(...)` — code that is not part
of this repository.  Modelled from the spec: section 4.3 describes it as
"tokenizes each unit's text ... then produces overlapping windows of
`chunkSize` tokens advancing by `chunkSize - chunkOverlap` tokens", with
metadata copied to every chunk and the final chunk per unit possibly
shorter.  The tokenizer itself is out of scope (spec section 1), so a
document is represented by its token sequence and chunks are token
windows. -/

/-- A document unit (langchain `Document`): its `page_content` represented
by its token sequence, plus the `source`/`page` metadata. -/
structure Document (α : Type) where
  tokens : List α
  source : Path
  page : Nat
deriving DecidableEq

/-- Modelled from the spec: the window loop of the third-party token
splitter (not part of this repository).  `s + 1` is the advance
`chunkSize - chunkOverlap`; the fuel argument makes the recursion
structural and is always called with enough fuel (one unit per emitted
window suffices, and every step consumes at least one token). -/
def split_tokens_go {α : Type} (chunk_size s : Nat) : Nat → List α → List (List α)
  | 0, _ => []
  | fuel + 1, tokens =>
    if tokens.length = 0 then []
    else if tokens.length ≤ chunk_size then [tokens]
    else tokens.take chunk_size :: split_tokens_go chunk_size s fuel (tokens.drop (s + 1))

/-- Modelled from the spec: split one token sequence into overlapping
windows of `chunk_size` tokens advancing by `s + 1` tokens. -/
def split_text_on_tokens {α : Type} (chunk_size s : Nat) (tokens : List α) : List (List α) :=
  split_tokens_go chunk_size s (tokens.length + 1) tokens

/-- The chunks derived from one document unit: token windows of size
`chunk_size` advancing by `chunk_size - chunk_overlap`, each carrying the
unit's metadata. -/
def chunksOfUnit {α : Type} (chunk_size chunk_overlap : Nat) (d : Document α) : List (Document α) :=
  (split_text_on_tokens chunk_size (chunk_size - chunk_overlap - 1) d.tokens).map
    (fun w => Document.mk w d.source d.page)

/-- Embeds `split_documents(docs, chunk_size, chunk_overlap)` from
`src/text_splitter.py` lines 9-42 (the windowing itself modelled from the
spec, see above): every unit is split and the chunk lists are
concatenated. -/
def split_documents {α : Type} (docs : List (Document α)) (chunk_size chunk_overlap : Nat) :
    List (Document α) :=
  (docs.map (chunksOfUnit chunk_size chunk_overlap)).flatten

/-! The build phase of `main()` (`src/main.py` inside `src/`, lines 56-76)
and the interactive loops. -/

/-- Result of the build phase: which pipeline stages ran, the contents of
the persisted index at `persist_directory` (`none` = directory absent),
and the file system afterwards. -/
structure BuildResult (α : Type) where
  stages : List String
  index : Option (List (Document α))
  fs : FS

/-- Embeds `main()`'s build phase, `src/main.py` lines 56-79: the tracker
gates only the deletion of the persisted store (`shutil.rmtree`); then
Step 1 `load_pdf` (raises `FileNotFoundError` on a missing PDF — fatal),
Step 2 `split_documents`, Step 3 `create_vectorstore` and
`update_pdf_checkpoint` run unconditionally.  `create_vectorstore`
(`src/vectorstore.py` lines 9-40) is `Chroma.from_documents(...)` —
modelled from the spec, section 4.4: the builder persists the given
chunks' embeddings into the store at `persistPath`, on top of whatever
data is already there (full-rebuild discipline lives in the caller).
`pdfPages` stands for the units the third-party PDF parser extracts from
the PDF's bytes. -/
def mainBuild {α : Type} (fs : FS) (pdf_path checkpoint_file : Path)
    (index : Option (List (Document α))) (pdfPages : List (Document α)) (now : Timestamp) :
    Except Exn (BuildResult α) :=
  let changed := has_pdf_changed fs pdf_path checkpoint_file
  let index1 := if changed then none else index
  match fs.file pdf_path with
  | none => Except.error ("PDF not found: " ++ pdf_path)
  | some _ =>
    let docs := pdfPages
    let splits := split_documents docs 500 100
    let index2 := some ((index1.getD []) ++ splits)
    let fs1 := update_pdf_checkpoint fs pdf_path checkpoint_file now
    Except.ok (BuildResult.mk ["load_pdf", "split_documents", "create_vectorstore"] index2 fs1)

/-- One step of the interactive loop in `src/main.py` (inside `src/`),
lines 92-120. -/
inductive LoopStep where
  | next (prints : List String) (query_count : Nat) (chain_calls : Nat)
  | quit (prints : List String)
deriving DecidableEq

/-- Embeds one iteration of the `while True` loop of `main()`
(`src/main.py` inside `src/`, lines 92-120): strip the line; an empty
question re-prompts without touching the chain; `exit` (case-insensitive)
leaves the loop; otherwise the query count is incremented and the chain is
invoked exactly once inside `trace_context`, with any exception caught at
the loop level and reported as `Error: <message>`.  `chain_calls` counts
the `rag_chain.invoke` calls the iteration performed. -/
def queryIteration (client : Option Sink) (chain : String → Except Exn String)
    (raw : String) (query_count : Nat) : LoopStep :=
  let user_question := pyStrip raw
  if user_question = "" then
    LoopStep.next ["Please enter a question.\n"] query_count 0
  else if pyLower user_question = "exit" then
    LoopStep.quit ["Goodbye!"]
  else
    let qc := query_count + 1
    let res := chain user_question
    match trace_context client ("query_" ++ Nat.repr qc) [("query", takeChars user_question 100)]
        (fun ctx =>
          match res with
          | Except.ok response =>
            Except.ok ((["\nSearching and generating response...\n",
                         "Answer: " ++ response ++ "\n"], setOutput ctx response))
          | Except.error e => Except.error e) with
    | Except.ok (prints, _) => LoopStep.next prints qc 1
    | Except.error e =>
      LoopStep.next ["\nSearching and generating response...\n", "Error: " ++ e ++ "\n"] qc 1

/-- Embeds the `while True` loop of `main()` (`src/main.py` inside `src/`)
over a list of stdin lines, collecting the printed payloads: each
iteration prompts `Question: `, runs `queryIteration`, and either stops
(`exit`) or continues with the updated query count. -/
def interactiveLoop (client : Option Sink) (chain : String → Except Exn String) :
    List String → Nat → List String
  | [], _ => []
  | line :: rest, query_count =>
    "Question: " ::
      match queryIteration client chain line query_count with
      | LoopStep.quit prints => prints
      | LoopStep.next prints qc _ => prints ++ interactiveLoop client chain rest qc

/-- One step of the top-level loop in `main.py` (repository root). -/
inductive SimpleStep where
  | exited (prints : List String)
  | answered (prints : List String)
  | failed (prints : List String) (e : Exn)
deriving DecidableEq

/-- Embeds one iteration of the loop of the top-level `main.py`, lines
17-24: `exit` compared case-insensitively (no stripping) leaves the loop;
any other input is passed to `rag_chain.invoke`; there is no `try/except`,
so a chain failure propagates out of the loop. -/
def simpleIteration (chain : String → Except Exn String) (user_question : String) : SimpleStep :=
  if pyLower user_question = "exit" then
    SimpleStep.exited ["Exiting chatbot."]
  else
    match chain user_question with
    | Except.ok response =>
      SimpleStep.answered ["Searching and generating response...", "\nAnswer: " ++ response]
    | Except.error e => SimpleStep.failed ["Searching and generating response..."] e

/-- Embeds the top-level `main.py` read-eval-print loop over a list of
stdin lines, collecting printed payloads; the prompt of
`input("\nYour Question: ")` is emitted each iteration.  A chain failure
ends the output (the exception propagates out of `main`). -/
def simpleLoop (chain : String → Except Exn String) : List String → List String
  | [] => []
  | line :: rest =>
    "\nYour Question: " ::
      match simpleIteration chain line with
      | SimpleStep.exited prints => prints
      | SimpleStep.answered prints => prints ++ simpleLoop chain rest
      | SimpleStep.failed prints _ => prints

/-! Concrete data used by the witnesses and the C1 evaluation. -/

/-- A file system in which `Ramayana.pdf` (mtime `5`) is unchanged: the
checkpoint holds exactly `str(5.0)`. -/
def fsUnchanged : FS :=
  FS.mk
    (fun p =>
      if p = "Ramayana.pdf" then some (FileInfo.mk FileData.garbage 5)
      else if p = ".pdf_checkpoint" then some (FileInfo.mk (FileData.timestamp 5) 6)
      else none)
    (fun _ => true)

/-- A file system with a PDF but no checkpoint file. -/
def fsNoCheckpoint : FS :=
  FS.mk
    (fun p => if p = "Ramayana.pdf" then some (FileInfo.mk FileData.garbage 5) else none)
    (fun _ => true)

/-- A file system in which nothing may be written. -/
def fsUnwritable : FS :=
  FS.mk
    (fun p => if p = "Ramayana.pdf" then some (FileInfo.mk FileData.garbage 5) else none)
    (fun _ => false)

/-- A one-page demo document. -/
def demoPages : List (Document Nat) := [Document.mk [0, 1, 2] "Ramayana.pdf" 0]

/-- The chunks a build of `demoPages` produces. -/
def demoChunks : List (Document Nat) := split_documents demoPages 500 100

/-- A sink that always fails (simulated telemetry outage). -/
def failSink : Sink := fun _ => Except.error "telemetry sink unavailable"

/-- A chain whose model call always fails (generation service down). -/
def failingChain : String → Except Exn String :=
  fun _ => Except.error "Ollama connection refused"

/-- A chain whose model call always succeeds. -/
def okChain : String → Except Exn String :=
  fun q => Except.ok ("You asked: " ++ q)

/-- A 600-token demo document unit (two windows at size 500 / overlap 100). -/
def demoUnit : Document Nat := Document.mk (List.range 600) "Ramayana.pdf" 0

/-- Two consecutive chunks overlap in exactly `ov` tokens: the last `ov`
tokens of the first chunk are precisely the first `ov` tokens of the
second. -/
def sharesOverlap {α : Type} (ov : Nat) (c₁ c₂ : List α) : Prop :=
  c₁.drop (c₁.length - ov) = c₂.take ov ∧ (c₂.take ov).length = ov

/-! Helper lemmas (shared; no claim theorem is used by any other proof). -/

theorem trace_function_eq {α β : Type} (client : Option Sink) (trace_name : String)
    (f : α → Except Exn β) (x : α) : trace_function client trace_name f x = f x := by
  unfold trace_function
  cases f x <;> rfl

theorem trace_context_eq {ρ : Type} (client : Option Sink) (trace_name : String)
    (metadata : List (String × String)) (body : TraceCtx → Except Exn (ρ × TraceCtx)) :
    trace_context client trace_name metadata body = body (TraceCtx.mk metadata none none) := by
  unfold trace_context
  cases body (TraceCtx.mk metadata none none) <;> rfl

theorem split_go_mem_le {α : Type} (cs s : Nat) :
    ∀ (fuel : Nat) (tokens : List α), ∀ c ∈ split_tokens_go cs s fuel tokens, c.length ≤ cs := by
  intro fuel
  induction fuel with
  | zero => intro tokens c hc; simp [split_tokens_go] at hc
  | succ n ih =>
    intro tokens c hc
    simp only [split_tokens_go] at hc
    by_cases h0 : tokens.length = 0
    · simp [h0] at hc
    · rw [if_neg h0] at hc
      by_cases hle : tokens.length ≤ cs
      · rw [if_pos hle] at hc
        simp at hc
        subst hc
        exact hle
      · rw [if_neg hle] at hc
        rcases List.mem_cons.mp hc with rfl | hmem
        · simp [List.length_take]
        · exact ih _ c hmem

theorem split_go_head {α : Type} (cs s : Nat) (fuel : Nat) (l : List α)
    (hl : l.length ≠ 0) (hf : fuel ≠ 0) :
    (split_tokens_go cs s fuel l).head? = some (l.take cs) := by
  cases fuel with
  | zero => exact absurd rfl hf
  | succ n =>
    simp only [split_tokens_go]
    rw [if_neg hl]
    by_cases hle : l.length ≤ cs
    · rw [if_pos hle]
      simp [List.take_of_length_le hle]
    · rw [if_neg hle]
      rfl

theorem split_go_chain {α : Type} (cs s ov : Nat) (hov : ov = cs - (s + 1)) (hs : s + 1 < cs) :
    ∀ (fuel : Nat) (l : List α),
      List.Chain' (fun c₁ c₂ => sharesOverlap ov c₁ c₂) (split_tokens_go cs s fuel l) := by
  intro fuel
  induction fuel with
  | zero => intro l; simp [split_tokens_go]
  | succ n ih =>
    intro l
    simp only [split_tokens_go]
    by_cases h0 : l.length = 0
    · simp [h0]
    · rw [if_neg h0]
      by_cases hle : l.length ≤ cs
      · rw [if_pos hle]
        simp
      · rw [if_neg hle]
        refine List.chain'_cons'.mpr ⟨?_, ih (l.drop (s + 1))⟩
        intro b hb
        cases n with
        | zero => simp [split_tokens_go] at hb
        | succ m =>
          have hdl : (l.drop (s + 1)).length ≠ 0 := by
            simp only [List.length_drop]
            omega
          rw [split_go_head cs s (m + 1) _ hdl (Nat.succ_ne_zero m)] at hb
          simp only [Option.mem_def, Option.some.injEq] at hb
          subst hb
          unfold sharesOverlap
          have hlen : (l.take cs).length = cs := by
            simp only [List.length_take]
            omega
          constructor
          · rw [hlen, hov]
            have h1 : cs - (cs - (s + 1)) = s + 1 := by omega
            rw [h1, List.drop_take, List.take_take]
            congr 1
            omega
          · rw [List.take_take]
            simp only [List.length_take, List.length_drop]
            omega

/-! Claim theorems. -/

/-- C2: `has_pdf_changed` returns true exactly when the checkpoint file is
missing, the source path is missing, the checkpoint content does not parse
as a float, or the stored timestamp differs from the source's current
modification time; it returns false exactly when the checkpoint exists,
parses, and the stored timestamp equals the current modification time. -/
theorem has_pdf_changed_spec (fs : FS) (p c : Path) :
    (has_pdf_changed fs p c = true ↔
      fs.file c = none ∨ fs.file p = none ∨
        (∃ ck pdf, fs.file c = some ck ∧ fs.file p = some pdf ∧
          (parseFloat ck.data = none ∨
            ∃ t, parseFloat ck.data = some t ∧ pdf.mtime ≠ t))) ∧
    (has_pdf_changed fs p c = false ↔
      ∃ ck pdf t, fs.file c = some ck ∧ fs.file p = some pdf ∧
        parseFloat ck.data = some t ∧ pdf.mtime = t) := by
  rcases hc : fs.file c with _ | ck <;> rcases hp : fs.file p with _ | pdf <;>
    simp [has_pdf_changed, hc, hp]
  rcases hpar : parseFloat ck.data with _ | t <;> simp [hpar]
  by_cases ht : pdf.mtime = t
  · simp [ht]
  · simp [ht]
    exact fun h => ht h.symm

/-- C2 witness: on a concrete file system whose checkpoint matches, the
check returns false; with no checkpoint file it returns true. -/
theorem has_pdf_changed_spec_witness :
    has_pdf_changed fsUnchanged "Ramayana.pdf" ".pdf_checkpoint" = false ∧
    has_pdf_changed fsNoCheckpoint "Ramayana.pdf" ".pdf_checkpoint" = true := by
  constructor
  · exact (has_pdf_changed_spec fsUnchanged "Ramayana.pdf" ".pdf_checkpoint").2.mpr
      ⟨FileInfo.mk (FileData.timestamp 5) 6, FileInfo.mk FileData.garbage 5, 5,
        by decide, by decide, rfl, rfl⟩
  · exact (has_pdf_changed_spec fsNoCheckpoint "Ramayana.pdf" ".pdf_checkpoint").1.mpr
      (Or.inl (by decide))

/-- C9: `has_pdf_changed` is read-only — with every file-system access
threaded through the state, the final file system is exactly the initial
one on every branch, and the returned Boolean agrees with the pure
embedding. -/
theorem has_pdf_changed_readonly (fs : FS) (p c : Path) :
    (has_pdf_changed_st fs p c).2 = fs ∧
    (has_pdf_changed_st fs p c).1 = has_pdf_changed fs p c := by
  unfold has_pdf_changed_st has_pdf_changed osPathExists osGetmtime readFileData
  rcases hc : fs.file c with _ | ck <;> rcases hp : fs.file p with _ | pdf <;>
    simp [hc, hp]
  rcases hpar : parseFloat ck.data with _ | t <;> simp [hpar]

/-- C9 witness: concrete instance of the frame property. -/
theorem has_pdf_changed_readonly_witness :
    (has_pdf_changed_st fsUnchanged "Ramayana.pdf" ".pdf_checkpoint").2 = fsUnchanged ∧
    (has_pdf_changed_st fsUnchanged "Ramayana.pdf" ".pdf_checkpoint").1 =
      has_pdf_changed fsUnchanged "Ramayana.pdf" ".pdf_checkpoint" :=
  has_pdf_changed_readonly fsUnchanged "Ramayana.pdf" ".pdf_checkpoint"

/-- C8: `update_pdf_checkpoint` never raises: when the source exists and
the checkpoint path is writable it overwrites the checkpoint file with the
source's current modification time and touches nothing else; when the
source is missing or the checkpoint path is unwritable the failure is
swallowed and the file system is returned unchanged. -/
theorem update_pdf_checkpoint_spec (fs : FS) (p c q : Path) (now : Timestamp) (pdf : FileInfo) :
    (fs.file p = some pdf → fs.writable c = true →
      (update_pdf_checkpoint fs p c now).file c =
        some (FileInfo.mk (FileData.timestamp pdf.mtime) now) ∧
      (q ≠ c → (update_pdf_checkpoint fs p c now).file q = fs.file q) ∧
      (update_pdf_checkpoint fs p c now).writable = fs.writable) ∧
    (fs.file p = none ∨ fs.writable c = false →
      update_pdf_checkpoint fs p c now = fs) := by
  constructor
  · intro hp hw
    have hres : update_pdf_checkpoint fs p c now =
        FS.mk
          (fun r => if r = c then some (FileInfo.mk (FileData.timestamp pdf.mtime) now)
                    else fs.file r)
          fs.writable := by
      unfold update_pdf_checkpoint update_pdf_checkpoint_raw writeFileData
      rw [hp]
      simp [hw]
    rw [hres]
    exact ⟨by simp, fun hq => by simp [hq], rfl⟩
  · intro hfail
    unfold update_pdf_checkpoint update_pdf_checkpoint_raw writeFileData
    rcases hfail with hp | hw
    · rw [hp]
    · rcases hp : fs.file p with _ | pdf'
      · rfl
      · simp [hw]

/-- C8 witness: a successful update writes the mtime and leaves the PDF
alone; an unwritable checkpoint path leaves the file system unchanged. -/
theorem update_pdf_checkpoint_spec_witness :
    (update_pdf_checkpoint fsNoCheckpoint "Ramayana.pdf" ".pdf_checkpoint" 9).file
        ".pdf_checkpoint" = some (FileInfo.mk (FileData.timestamp 5) 9) ∧
    (update_pdf_checkpoint fsNoCheckpoint "Ramayana.pdf" ".pdf_checkpoint" 9).file
        "Ramayana.pdf" = fsNoCheckpoint.file "Ramayana.pdf" ∧
    update_pdf_checkpoint fsUnwritable "Ramayana.pdf" ".pdf_checkpoint" 9 = fsUnwritable := by
  have h1 := update_pdf_checkpoint_spec fsNoCheckpoint "Ramayana.pdf" ".pdf_checkpoint"
    "Ramayana.pdf" 9 (FileInfo.mk FileData.garbage 5)
  have h2 := update_pdf_checkpoint_spec fsUnwritable "Ramayana.pdf" ".pdf_checkpoint"
    "x" 9 (FileInfo.mk FileData.garbage 5)
  obtain ⟨ha, hb, -⟩ := h1.1 (by decide) rfl
  exact ⟨ha, hb (by decide), h2.2 (Or.inr rfl)⟩

/-- C4: checkpoint round-trip — after a successful `update_pdf_checkpoint`
(source present, checkpoint path writable, and the two paths distinct so
the write does not alter the source's own modification time), a subsequent
`has_pdf_changed` on the same pair of paths returns false: the written
representation of the timestamp parses back to an exactly equal value. -/
theorem checkpoint_roundtrip (fs : FS) (p c : Path) (now : Timestamp) (pdf : FileInfo)
    (hp : fs.file p = some pdf) (hw : fs.writable c = true) (hpc : p ≠ c) :
    has_pdf_changed (update_pdf_checkpoint fs p c now) p c = false := by
  unfold update_pdf_checkpoint update_pdf_checkpoint_raw writeFileData
  rw [hp]
  simp only [hw, if_pos]
  simp [has_pdf_changed, hpc, hp, parseFloat]

/-- C4 witness: concrete round-trip starting from a file system without a
checkpoint. -/
theorem checkpoint_roundtrip_witness :
    has_pdf_changed
      (update_pdf_checkpoint fsNoCheckpoint "Ramayana.pdf" ".pdf_checkpoint" 9)
      "Ramayana.pdf" ".pdf_checkpoint" = false :=
  checkpoint_roundtrip fsNoCheckpoint "Ramayana.pdf" ".pdf_checkpoint" 9
    (FileInfo.mk FileData.garbage 5) (by decide) rfl (by decide)

/-- C5: tracing is transparent — for every client (configured or not, and
with an arbitrarily failing sink), `trace_function` returns exactly what
the wrapped function returns, success and failure alike, and a body run
inside `trace_context` behaves exactly as if unwrapped; sink failures
never raise out of the traced call. -/
theorem tracing_transparent {α β ρ : Type} (client : Option Sink) (trace_name : String)
    (f : α → Except Exn β) (x : α) (metadata : List (String × String))
    (body : TraceCtx → Except Exn (ρ × TraceCtx)) :
    trace_function client trace_name f x = f x ∧
    trace_context client trace_name metadata body = body (TraceCtx.mk metadata none none) :=
  ⟨trace_function_eq client trace_name f x, trace_context_eq client trace_name metadata body⟩

/-- C5 witness: with a sink that always fails, a traced function still
returns its result and a traced block still returns its body's result. -/
theorem tracing_transparent_witness :
    trace_function (some failSink) "load_pdf" (fun n : Nat => Except.ok (n + 1)) 3 =
      Except.ok 4 ∧
    trace_context (some failSink) "query_1" []
        (fun ctx => Except.ok ((7 : Nat), setOutput ctx "hi")) =
      Except.ok (7, setOutput (TraceCtx.mk [] none none) "hi") := by
  have h1 := @tracing_transparent Nat Nat Nat (some failSink) "load_pdf"
    (fun n => Except.ok (n + 1)) 3 [] (fun ctx => Except.ok (0, ctx))
  have h2 := @tracing_transparent Nat Nat Nat (some failSink) "query_1"
    (fun n => Except.ok (n + 1)) 3 [] (fun ctx => Except.ok (7, setOutput ctx "hi"))
  exact ⟨h1.1.trans rfl, h2.2.trans rfl⟩

/-- C3: with `chunk_size = 500` and `chunk_overlap = 100`, every chunk
`split_documents` produces holds at most 500 tokens, and each pair of
consecutive chunks derived from the same source unit shares exactly 100
tokens of overlap (the last 100 tokens of one chunk are precisely the
first 100 of the next). -/
theorem split_documents_bounds {α : Type} (docs : List (Document α)) :
    (∀ ch ∈ split_documents docs 500 100, ch.tokens.length ≤ 500) ∧
    (∀ d ∈ docs,
      List.Chain' (fun c₁ c₂ => sharesOverlap 100 c₁.tokens c₂.tokens)
        (chunksOfUnit 500 100 d)) := by
  constructor
  · intro ch hch
    simp only [split_documents, List.mem_flatten, List.mem_map] at hch
    obtain ⟨l, ⟨d, hd, rfl⟩, hchl⟩ := hch
    simp only [chunksOfUnit, List.mem_map] at hchl
    obtain ⟨w, hw, rfl⟩ := hchl
    exact split_go_mem_le 500 (500 - 100 - 1) _ _ w hw
  · intro d hd
    have h := split_go_chain 500 (500 - 100 - 1) 100 (by norm_num) (by norm_num)
      (d.tokens.length + 1) d.tokens
    unfold chunksOfUnit split_text_on_tokens
    rw [List.chain'_map]
    exact h

set_option maxRecDepth 100000 in
/-- C3 witness: a 600-token unit yields a first chunk of at most 500
tokens, and its chunk list satisfies the exact-100-token-overlap chain. -/
theorem split_documents_bounds_witness :
    (Document.mk ((List.range 600).take 500) "Ramayana.pdf" 0 : Document Nat).tokens.length
        ≤ 500 ∧
    List.Chain' (fun c₁ c₂ => sharesOverlap 100 c₁.tokens c₂.tokens)
      (chunksOfUnit 500 100 demoUnit) := by
  have h := split_documents_bounds [demoUnit]
  exact ⟨h.1 (Document.mk ((List.range 600).take 500) "Ramayana.pdf" 0) (by decide),
    h.2 demoUnit (by decide)⟩

/-- C6: in the interactive loop, an exception from processing one query is
caught at the loop level, reported as `Error: <message>`, the chain is
invoked exactly once (no retry), the query counter advances, and the loop
continues with the next line of input. -/
theorem query_failure_caught (client : Option Sink) (chain : String → Except Exn String)
    (line : String) (rest : List String) (query_count : Nat) (e : Exn)
    (hne : pyStrip line ≠ "") (hnx : pyLower (pyStrip line) ≠ "exit")
    (hf : chain (pyStrip line) = Except.error e) :
    queryIteration client chain line query_count =
      LoopStep.next ["\nSearching and generating response...\n", "Error: " ++ e ++ "\n"]
        (query_count + 1) 1 ∧
    interactiveLoop client chain (line :: rest) query_count =
      "Question: " :: "\nSearching and generating response...\n" :: ("Error: " ++ e ++ "\n") ::
        interactiveLoop client chain rest (query_count + 1) := by
  have hstep : queryIteration client chain line query_count =
      LoopStep.next ["\nSearching and generating response...\n", "Error: " ++ e ++ "\n"]
        (query_count + 1) 1 := by
    simp only [queryIteration]
    rw [if_neg hne, if_neg hnx, trace_context_eq]
    simp only [hf]
  refine ⟨hstep, ?_⟩
  conv_lhs => rw [interactiveLoop]
  rw [hstep]
  rfl

/-- C6 witness: a concrete failing chain is reported and the loop output
continues past the failure. -/
theorem query_failure_caught_witness :
    queryIteration none failingChain " What is dharma? " 0 =
      LoopStep.next
        ["\nSearching and generating response...\n", "Error: Ollama connection refused\n"] 1 1 ∧
    interactiveLoop none failingChain [" What is dharma? "] 0 =
      ["Question: ", "\nSearching and generating response...\n",
       "Error: Ollama connection refused\n"] := by
  have h := query_failure_caught none failingChain " What is dharma? " [] 0
    "Ollama connection refused" (by decide) (by decide) rfl
  exact ⟨h.1, h.2.trans rfl⟩

/-- C10: an input line that is empty or whitespace-only never invokes the
chain — the loop prints `Please enter a question.`, leaves the query count
unchanged, and continues with the next line. -/
theorem empty_question_reprompt (client : Option Sink) (chain : String → Except Exn String)
    (line : String) (rest : List String) (query_count : Nat) (hempty : pyStrip line = "") :
    queryIteration client chain line query_count =
      LoopStep.next ["Please enter a question.\n"] query_count 0 ∧
    interactiveLoop client chain (line :: rest) query_count =
      "Question: " :: "Please enter a question.\n" ::
        interactiveLoop client chain rest query_count := by
  have hstep : queryIteration client chain line query_count =
      LoopStep.next ["Please enter a question.\n"] query_count 0 := by
    simp only [queryIteration]
    rw [if_pos hempty]
  refine ⟨hstep, ?_⟩
  conv_lhs => rw [interactiveLoop]
  rw [hstep]
  rfl

/-- C10 witness: a whitespace-only line re-prompts without invoking the
chain. -/
theorem empty_question_reprompt_witness :
    queryIteration none failingChain "   " 0 =
      LoopStep.next ["Please enter a question.\n"] 0 0 ∧
    interactiveLoop none failingChain ["   "] 0 =
      ["Question: ", "Please enter a question.\n"] := by
  have h := empty_question_reprompt none failingChain "   " [] 0 (by decide)
  exact ⟨h.1, h.2.trans rfl⟩

/-- C7: the top-level read-eval-print loop prompts `Your Question:`,
echoes each answer as `Answer: <text>`, terminates exactly when the input
lowercases to `exit`, and processes any other input as a query. -/
theorem repl_prompt_echo_exit (chain : String → Except Exn String) (q : String)
    (rest : List String) (r : String) :
    (simpleIteration chain q = SimpleStep.exited ["Exiting chatbot."] ↔ pyLower q = "exit") ∧
    (pyLower q = "exit" →
      simpleLoop chain (q :: rest) = ["\nYour Question: ", "Exiting chatbot."]) ∧
    (pyLower q ≠ "exit" → chain q = Except.ok r →
      simpleLoop chain (q :: rest) =
        "\nYour Question: " :: "Searching and generating response..." ::
          ("\nAnswer: " ++ r) :: simpleLoop chain rest) := by
  have hiff : simpleIteration chain q = SimpleStep.exited ["Exiting chatbot."] ↔
      pyLower q = "exit" := by
    unfold simpleIteration
    by_cases hq : pyLower q = "exit"
    · simp [hq]
    · rw [if_neg hq]
      constructor
      · intro hcontr
        cases hchain : chain q <;> simp [hchain] at hcontr
      · intro h
        exact absurd h hq
  refine ⟨hiff, fun hq => ?_, fun hq hr => ?_⟩
  · conv_lhs => rw [simpleLoop]
    unfold simpleIteration
    rw [if_pos hq]
  · conv_lhs => rw [simpleLoop]
    unfold simpleIteration
    rw [if_neg hq, hr]
    rfl

/-- C7 witness: a two-line session — one answered query, then `EXIT`
(case-insensitive) ends the loop. -/
theorem repl_prompt_echo_exit_witness :
    simpleLoop okChain ["Who is Rama?", "EXIT"] =
      ["\nYour Question: ", "Searching and generating response...",
       "\nAnswer: You asked: Who is Rama?", "\nYour Question: ", "Exiting chatbot."] := by
  have h1 := repl_prompt_echo_exit okChain "Who is Rama?" ["EXIT"] "You asked: Who is Rama?"
  have h2 := repl_prompt_echo_exit okChain "EXIT" [] ""
  rw [h1.2.2 (by decide) rfl, h2.2.1 (by decide)]
  rfl

/-- C1 (evaluation of the code at the failing input): even when
`has_pdf_changed` reports the PDF unchanged, `main()` still runs
`load_pdf`, `split_documents` and `create_vectorstore`, and the persisted
index does not stay unchanged — the rebuilt store holds the old chunks
plus a duplicate of every freshly split chunk. -/
theorem main_rebuilds_despite_unchanged_pdf :
    has_pdf_changed fsUnchanged "Ramayana.pdf" ".pdf_checkpoint" = false ∧
    Option.map BuildResult.stages
        (mainBuild fsUnchanged "Ramayana.pdf" ".pdf_checkpoint"
          (some demoChunks) demoPages 7).toOption =
      some ["load_pdf", "split_documents", "create_vectorstore"] ∧
    Option.map BuildResult.index
        (mainBuild fsUnchanged "Ramayana.pdf" ".pdf_checkpoint"
          (some demoChunks) demoPages 7).toOption =
      some (some (demoChunks ++ demoChunks)) ∧
    ¬ (some (demoChunks ++ demoChunks) = some demoChunks) := by
  decide

end RagSpec
